import Mathlib

/-!
Verification development for the `second_opinion` repository.

The Python sources under `app/` are shallowly embedded: strings become
`List Char`, Python floats arising from the fixed increments 0.5 / 0.3 are
modelled exactly as rationals, dictionaries with optional keys become
structures with default fields, and the external LLM collaborator becomes an
oracle `Prompt → Option Str` (`none` models a raised `LLMError`).  Character
classes (`\w`, `.lower()`, `.isspace()`) are modelled on their ASCII behaviour,
which is the fragment the pattern library and all inputs considered here use.
-/

namespace SecondOpinion

abbrev Str := List Char

/-! ### Python string primitives -/

/-- Python `str.lower()` (ASCII fragment). -/
def lowerStr (s : Str) : Str := s.map Char.toLower

/-- Python word character class `\w` (ASCII fragment): alphanumeric or underscore. -/
def isWordChar (c : Char) : Bool := c.isAlphanum || c = '_'

/-- Python `str.strip()`: drop whitespace from both ends. -/
def pyStrip (s : Str) : Str :=
  ((s.dropWhile Char.isWhitespace).reverse.dropWhile Char.isWhitespace).reverse

/-- Python substring test `needle in hay`. -/
def pyIn (needle hay : Str) : Bool :=
  (List.range (hay.length + 1)).any (fun i => needle.isPrefixOf (hay.drop i))

/-- Python `" ".join(xs)`. -/
def joinSp : List Str → Str
  | [] => []
  | [x] => x
  | x :: rest => x ++ ' ' :: joinSp rest

/-- Python `sep.join(xs)`. -/
def joinSep (sep : Str) : List Str → Str
  | [] => []
  | [x] => x
  | x :: rest => x ++ sep ++ joinSep sep rest

/-- Helper for `splitWs`: accumulates the current (reversed) token. -/
def splitWsGo : Str → Str → List Str
  | [], cur => if cur.isEmpty then [] else [cur.reverse]
  | c :: rest, cur =>
    if c.isWhitespace then
      if cur.isEmpty then splitWsGo rest [] else cur.reverse :: splitWsGo rest []
    else splitWsGo rest (c :: cur)

/-- Python `str.split()` with no argument: split on whitespace runs, no empty tokens. -/
def splitWs (s : Str) : List Str := splitWsGo s []

/-! ### Word-boundary regex matching

`app/matcher.py` matches each signal with the regex
`r'\b' + re.escape(signal_lower) + r'\b'`, i.e. the literal phrase with a word
boundary on each side, via `re.finditer` (non-overlapping, left to right). -/

/-- Whether the character at index `i` of `text` is a word character
(out-of-range counts as non-word, like the ends of a Python string). -/
def isWordAt (text : Str) (i : Nat) : Bool :=
  match text.get? i with
  | some c => isWordChar c
  | none => false

/-- The regex `\b` assertion at position `i` of `text`. -/
def wordBoundary (text : Str) (i : Nat) : Bool :=
  (if i = 0 then false else isWordAt text (i - 1)) != isWordAt text i

/-- Whether `\b pat \b` matches in `text` at position `i` (pat taken literally,
as produced by `re.escape`). -/
def boundMatchAt (pat text : Str) (i : Nat) : Bool :=
  pat.isPrefixOf (text.drop i) && wordBoundary text i && wordBoundary text (i + pat.length)

/-- Scanning loop of `re.finditer` for the word-bounded literal `pat`:
non-overlapping matches, scanning left to right.  `fuel` bounds the recursion
and is always called with enough fuel to scan the whole text. -/
def findFrom (pat text : Str) : Nat → Nat → List Nat
  | _, 0 => []
  | i, fuel + 1 =>
    if i ≤ text.length then
      if boundMatchAt pat text i then
        i :: findFrom pat text (i + max pat.length 1) fuel
      else
        findFrom pat text (i + 1) fuel
    else []

/-- Model of `list(re.finditer(...))` for the word-bounded literal `pat`, as the list of
match start positions. -/
def reFinditer (pat text : Str) : List Nat := findFrom pat text 0 (text.length + 1)

/-- Truthiness of `re.search(r'\b' + re.escape(pat) + r'\b', text)`. -/
def reSearchB (pat text : Str) : Bool := !(reFinditer pat text).isEmpty

/-! ### Data model (`app/models.py`) -/

inductive ConfidenceLevel where
  | high
  | medium
  | low
deriving DecidableEq, Repr

structure DocumentSection where
  heading : Str
  content : Str
  confidence_weight : Str := "medium".toList
deriving DecidableEq, Repr

structure ParsedDocument where
  sections : List DocumentSection
deriving DecidableEq, Repr

structure Assumption where
  text : Str
  source_section : Str
  confidence : ConfidenceLevel
deriving DecidableEq, Repr

/-- A record of the pattern library (a JSON object in `failure_patterns.json`).
`safety_signals`, `impact_surface` and `required_context` are optional keys
read with `pattern.get(key, [])`, so an absent key and an empty list are
indistinguishable to all consumers and are both modelled as `[]`. -/
structure FailurePattern where
  id : Str
  name : Str
  signals : List Str
  trigger_conditions : List Str
  why_subtle : List Str
  discussion_questions : List Str
  safety_signals : List Str := []
  impact_surface : List Str := []
  required_context : List Str := []
deriving DecidableEq, Repr

/-- One evidence line of a match.  `app/matcher.py` renders each line to a
display string (context-window extraction and f-string formatting,
lines 69-117, 131, 153-156); the constructor payloads carry the data those
strings are rendered from, which is what the claims are about. -/
inductive Evidence where
  | signal (sig : Str) (sections : List Str)
  | assumption (source_section : Str) (excerpt : Str)
  | mitigation (sections : List Str) (phrase : Str)
deriving DecidableEq, Repr

structure FailurePatternMatch where
  pattern_id : Str
  name : Str
  confidence : ConfidenceLevel
  match_strength : Option ℚ := none
  evidence : List Evidence
  trigger_conditions : List Str
  why_subtle : List Str
  impact_surface : List Str
  discussion_questions : List Str
deriving DecidableEq, Repr

/-! ### Matching engine (`app/matcher.py`) -/

/-- Embedding of `derive_impact_surface` (matcher.py lines 4-29). -/
def derive_impact_surface (pattern : FailurePattern) : List Str :=
  let pn := lowerStr pattern.name
  let s1 := if pyIn "latency".toList pn || pyIn "tail".toList pn then
      ["User-facing latency spikes".toList] else []
  let s2 := if pyIn "retry".toList pn || pyIn "amplification".toList pn then
      ["Downstream error amplification".toList, "Increased load on dependencies".toList]
    else []
  let s3 := if pyIn "queue".toList pn || pyIn "backpressure".toList pn then
      ["Consumer lag and memory pressure".toList] else []
  let s4 := if pyIn "cache".toList pn || pyIn "stampede".toList pn then
      ["Backend overload from cache misses".toList] else []
  let s5 := if pyIn "consistency".toList pn || pyIn "drift".toList pn then
      ["Data inconsistency and user confusion".toList] else []
  let s6 := if pyIn "partition".toList pn || pyIn "network".toList pn then
      ["Service unavailability in affected regions".toList] else []
  let acc := s1 ++ s2 ++ s3 ++ s4 ++ s5 ++ s6
  if acc.isEmpty then
    ["Service degradation under failure conditions".toList,
     "Potential user-facing errors".toList]
  else acc

/-- Headings of the sections in which a signal phrase matches
(matcher.py lines 60-68: word-bounded, case-insensitive). -/
def sectionsHit (sig : Str) (doc : ParsedDocument) : List Str :=
  ((doc.sections.filter
    (fun s => !(reFinditer (lowerStr sig) (lowerStr s.content)).isEmpty)).map
    (fun s => s.heading))

/-- Whether a signal matches in at least one section. -/
def signalHitB (doc : ParsedDocument) (sig : Str) : Bool :=
  !(sectionsHit sig doc).isEmpty

/-- One iteration of the signal loop (matcher.py lines 55-117): a signal that
matches in at least one section adds 1 to the score and appends one evidence
line. -/
def signalStep (doc : ParsedDocument) (acc : Nat × List Evidence) (sig : Str) :
    Nat × List Evidence :=
  let secs := sectionsHit sig doc
  if secs.isEmpty then acc
  else (acc.1 + 1, acc.2 ++ [Evidence.signal sig secs])

/-- The signal loop (matcher.py lines 55-117). -/
def signalFold (doc : ParsedDocument) (signals : List Str) : Nat × List Evidence :=
  signals.foldl (signalStep doc) (0, [])

/-- Value of `score` after the signal loop. -/
def signalScore (p : FailurePattern) (doc : ParsedDocument) : Nat :=
  (signalFold doc p.signals).1

/-- The first three lowercased whitespace-separated tokens of the pattern name
(matcher.py lines 125, 129). -/
def patternKeywords (p : FailurePattern) : List Str :=
  ((splitWs p.name).map lowerStr).take 3

/-- Whether an assumption reinforces the pattern (matcher.py line 129):
plain substring test of any keyword against the lowercased assumption text. -/
def assumptionQualifies (p : FailurePattern) (a : Assumption) : Bool :=
  (patternKeywords p).any (fun kw => pyIn kw (lowerStr a.text))

/-- One iteration of the assumption loop (matcher.py lines 126-131): a
qualifying assumption adds 0.5 and appends one evidence line quoting the
first 60 characters of its text. -/
def assumptionStep (p : FailurePattern) (acc : ℚ × List Evidence)
    (a : Assumption) : ℚ × List Evidence :=
  if assumptionQualifies p a then
    (acc.1 + 1/2, acc.2 ++ [Evidence.assumption a.source_section (a.text.take 60)])
  else acc

/-- The assumption loop (matcher.py lines 123-131). -/
def assumptionFold (p : FailurePattern) (assumptions : List Assumption)
    (ev : List Evidence) : ℚ × List Evidence :=
  assumptions.foldl (assumptionStep p) (0, ev)

def assumptionBonus (p : FailurePattern) (assumptions : List Assumption) : ℚ :=
  (assumptionFold p assumptions []).1

/-- The default mitigation keywords (matcher.py lines 138-141). -/
def defaultSafetySignals : List Str :=
  ["circuit breaker".toList, "rate limit".toList, "timeout".toList,
   "deadline".toList, "backpressure".toList, "load shedding".toList,
   "hedging".toList, "fallback".toList]

/-- Pattern-specific safety signals if present, else the default list
(matcher.py lines 135-141). -/
def effectiveSafetySignals (p : FailurePattern) : List Str :=
  if p.safety_signals.isEmpty then defaultSafetySignals else p.safety_signals

/-- Headings of the sections mentioning a mitigation phrase
(matcher.py lines 144-150). -/
def mitigationSections (phrase : Str) (doc : ParsedDocument) : List Str :=
  ((doc.sections.filter
    (fun s => reSearchB (lowerStr phrase) (lowerStr s.content))).map
    (fun s => s.heading))

/-- Whether a mitigation phrase is found in at least one section. -/
def mitigationHitB (doc : ParsedDocument) (phrase : Str) : Bool :=
  !(mitigationSections phrase doc).isEmpty

/-- One iteration of the mitigation loop (matcher.py lines 143-156): a
safety-signal phrase found in some section subtracts 0.3 and appends one
evidence line. -/
def mitigationStep (doc : ParsedDocument) (acc : ℚ × List Evidence)
    (m : Str) : ℚ × List Evidence :=
  let secs := mitigationSections m doc
  if secs.isEmpty then acc
  else (acc.1 + 3/10, acc.2 ++ [Evidence.mitigation secs m])

/-- The mitigation loop (matcher.py lines 143-156). -/
def mitigationFold (p : FailurePattern) (doc : ParsedDocument)
    (ev : List Evidence) : ℚ × List Evidence :=
  (effectiveSafetySignals p).foldl (mitigationStep doc) (0, ev)

def mitigationPenalty (p : FailurePattern) (doc : ParsedDocument) : ℚ :=
  (mitigationFold p doc []).1

/-- Embedding of `final_score = max(1, score + assumption_bonus - mitigation_penalty)`
(matcher.py lines 159-160). -/
def finalScore (p : FailurePattern) (doc : ParsedDocument)
    (assumptions : List Assumption) : ℚ :=
  max 1 ((signalScore p doc : ℚ) + assumptionBonus p assumptions - mitigationPenalty p doc)

/-- Confidence tier assignment (matcher.py lines 166-171). -/
def confidenceOf (p : FailurePattern) (doc : ParsedDocument)
    (assumptions : List Assumption) : ConfidenceLevel :=
  if 3 ≤ finalScore p doc assumptions then ConfidenceLevel.high
  else if 2 ≤ finalScore p doc assumptions ∨ 0 < assumptionBonus p assumptions then
    ConfidenceLevel.medium
  else ConfidenceLevel.low

/-- Embedding of `match_strength = min(final_score / max(total_signals, 1), 1.0)`
(matcher.py lines 174-175). -/
def matchStrength (p : FailurePattern) (doc : ParsedDocument)
    (assumptions : List Assumption) : ℚ :=
  min (finalScore p doc assumptions / ((max p.signals.length 1 : ℕ) : ℚ)) 1

/-- The accumulated evidence list of a pattern: signal lines, then assumption
lines, then mitigation lines, in loop order. -/
def evidenceOf (p : FailurePattern) (doc : ParsedDocument)
    (assumptions : List Assumption) : List Evidence :=
  (mitigationFold p doc (assumptionFold p assumptions (signalFold doc p.signals).2).2).2

/-- The `FailurePatternMatch` constructed at matcher.py lines 182-194. -/
def buildMatch (p : FailurePattern) (doc : ParsedDocument)
    (assumptions : List Assumption) : FailurePatternMatch :=
  { pattern_id := p.id
    name := p.name
    confidence := confidenceOf p doc assumptions
    match_strength := some (matchStrength p doc assumptions)
    evidence := evidenceOf p doc assumptions
    trigger_conditions := p.trigger_conditions
    why_subtle := p.why_subtle
    impact_surface :=
      if p.impact_surface.isEmpty then derive_impact_surface p else p.impact_surface
    discussion_questions := p.discussion_questions }

/-- An element of the list that `match_patterns` returns.  At matcher.py
line 66 the accumulator variable `matches` is reassigned to
`list(re.finditer(...))` on every (signal, section) iteration, so the returned
list can hold leftover `re.Match` objects (modelled by their start position)
alongside the `FailurePatternMatch` objects appended at line 182. -/
inductive MatcherItem where
  | regexHit (pos : Nat)
  | fpm (m : FailurePatternMatch)
deriving DecidableEq, Repr

/-- The value that the variable `matches` holds after the signal loop of one
pattern: the `re.finditer` result for the last signal against the last section
(matcher.py line 66). -/
def lastSignalHits (p : FailurePattern) (doc : ParsedDocument) : List Nat :=
  match p.signals.getLast?, doc.sections.getLast? with
  | some sig, some sec => reFinditer (lowerStr sig) (lowerStr sec.content)
  | _, _ => []

/-- One iteration of the pattern loop (matcher.py lines 48-194), including the
reassignment of `matches` at line 66: if the pattern has signals and the
document has sections, the accumulated list is discarded and replaced by the
regex hits of the last (signal, section) pair before the pattern's own match
is appended (or not, when the score is zero). -/
def processPattern (doc : ParsedDocument) (assumptions : List Assumption)
    (acc : List MatcherItem) (p : FailurePattern) : List MatcherItem :=
  let acc1 :=
    if p.signals.isEmpty || doc.sections.isEmpty then acc
    else (lastSignalHits p doc).map MatcherItem.regexHit
  if signalScore p doc = 0 then acc1
  else acc1 ++ [MatcherItem.fpm (buildMatch p doc assumptions)]

/-- Joined lowercased section contents (matcher.py lines 40-42,
identical to unknowns.py line 22). -/
def fullTextOf (doc : ParsedDocument) : Str :=
  joinSp (doc.sections.map (fun s => lowerStr s.content))

/-- Embedding of `match_patterns` (matcher.py lines 31-196). -/
def match_patterns (doc : ParsedDocument) (lib : List FailurePattern)
    (assumptions : List Assumption) : List MatcherItem :=
  let fullText := fullTextOf doc
  if fullText.isEmpty || (pyStrip fullText).length < 10 then []
  else lib.foldl (processPattern doc assumptions) []

/-! ### Unknowns detector (`app/unknowns.py`) -/

/-- The contextual metadata dictionary (`app/models.py` `ContextualMetadata`,
passed to `detect_unknowns` as a plain dict with possibly-`None` values). -/
structure ContextualMetadata where
  expected_scale_qps : Option Str := none
  expected_data_size : Option Str := none
  critical_slos_latency : Option Str := none
  critical_slos_availability : Option Str := none
  known_dependencies : Option Str := none
deriving DecidableEq, Repr

/-- Truthiness of `contextual_metadata and contextual_metadata.get(key)`:
the dict may be absent, the key may be `None`, and an empty string is falsy. -/
def metaTruthy (meta : Option ContextualMetadata)
    (f : ContextualMetadata → Option Str) : Bool :=
  match meta with
  | none => false
  | some md =>
    match f md with
    | none => false
    | some s => !s.isEmpty

/-- A single-quote character, used in rendered sentences. -/
def squote : Char := Char.ofNat 39

/-- Membership of a string in a list of strings. -/
def containsStr (xs : List Str) (x : Str) : Bool := xs.any (fun y => decide (y = x))

/-- Sentence emitted for an unmatched pattern whose required context is
entirely absent (unknowns.py line 70). -/
def requiredContextSentence (p : FailurePattern) : Str :=
  "Pattern ".toList ++ [squote] ++ p.name ++ [squote] ++
    " may be relevant but required context missing: ".toList ++
    joinSep ", ".toList (p.required_context.take 3)

/-- Sentence emitted for topically relevant but unmatched patterns
(unknowns.py line 83). -/
def potentialMissingSentence (names : List Str) : Str :=
  "Design mentions concepts related to: ".toList ++
    joinSep ", ".toList (names.take 3) ++
    ", but insufficient signals detected".toList

/-- Embedding of `detect_unknowns` (unknowns.py lines 9-99). -/
def detect_unknowns (doc : ParsedDocument) (matched : List FailurePatternMatch)
    (lib : List FailurePattern) (meta : Option ContextualMetadata) : List Str :=
  let ft := fullTextOf doc
  let matchedIds := matched.map (fun m => m.pattern_id)
  let c1 :=
    if !metaTruthy meta (fun m => m.expected_scale_qps) &&
        !pyIn "scale".toList ft && !pyIn "qps".toList ft && !pyIn "throughput".toList ft then
      ["Expected scale (QPS/throughput) not specified".toList] else []
  let c2 :=
    if !metaTruthy meta (fun m => m.critical_slos_latency) &&
        !pyIn "slo".toList ft && !pyIn "latency".toList ft && !pyIn "p99".toList ft then
      ["Critical SLOs (latency) not specified".toList] else []
  let c3 :=
    if !metaTruthy meta (fun m => m.critical_slos_availability) &&
        !pyIn "availability".toList ft && !pyIn "uptime".toList ft then
      ["Critical SLOs (availability) not specified".toList] else []
  let c4 :=
    if !pyIn "region".toList ft && !pyIn "multi-region".toList ft then
      ["Multi-region behavior and failover strategy not specified".toList] else []
  let c5 :=
    if !pyIn "monitoring".toList ft && !pyIn "observability".toList ft &&
        !pyIn "metrics".toList ft then
      ["Monitoring and observability strategy not specified".toList] else []
  let c6 :=
    if !pyIn "load test".toList ft && !pyIn "stress test".toList ft &&
        !pyIn "chaos".toList ft then
      ["Load testing and failure simulation strategy not specified".toList] else []
  let c7 := lib.filterMap (fun p =>
    if !containsStr matchedIds p.id && !p.required_context.isEmpty &&
        ((p.required_context.filter (fun f =>
            !pyIn ((lowerStr f).map (fun c => if c = '_' then ' ' else c)) ft &&
            !pyIn (lowerStr f) ft)).length = p.required_context.length) then
      some (requiredContextSentence p)
    else none)
  let potential := lib.filterMap (fun p =>
    if !containsStr matchedIds p.id &&
        (((splitWs (lowerStr p.name)).take 2).any (fun w => pyIn w ft)) then
      some p.name
    else none)
  let c8 := if potential.isEmpty then [] else [potentialMissingSentence potential]
  let c9 :=
    if !metaTruthy meta (fun m => m.known_dependencies) &&
        (pyIn "dependency".toList ft || pyIn "service".toList ft) &&
        (!pyIn "dependency".toList ft ||
          (doc.sections.filter (fun s => pyIn "dependency".toList (lowerStr s.heading))).length = 0) then
      ["Dependency list and failure modes not explicitly documented".toList] else []
  let c10 :=
    if !pyIn "traffic".toList ft && !pyIn "request".toList ft && !pyIn "load".toList ft then
      ["Traffic patterns and load characteristics not specified".toList] else []
  let c11 :=
    if !pyIn "error".toList ft && !pyIn "failure".toList ft && !pyIn "exception".toList ft then
      ["Error handling and failure recovery strategies not explicitly documented".toList]
    else []
  (c1 ++ c2 ++ c3 ++ c4 ++ c5 ++ c6 ++ c7 ++ c8 ++ c9 ++ c10 ++ c11).take 10

/-! ### The narrative collaborator

`app/llm.py` `call_llm` is an external text-completion capability; it is
modelled as an oracle from the prompt's payload to `Option Str`, where `none`
models a raised `LLMError` (connectivity failure, missing model, etc.). -/

/-- The payload handed to a prompt builder of `app/prompts.py`. -/
inductive Prompt where
  | whyThisMatters (primary : Str) (trigger_conditions : List Str) (why_subtle : List Str)
  | synthesisSummary (detail : List (Str × ConfidenceLevel × List Str))
  | ruledOut (snippet : Str) (matchedNames : List Str) (risks : List Str)

abbrev Llm := Prompt → Option Str

/-! ### Ruled-out risks (`app/ruled_out.py`) -/

/-- The list `COMMON_RISKS` (ruled_out.py lines 6-17). -/
def COMMON_RISKS : List Str :=
  ["Network saturation".toList, "Memory pressure".toList,
   "Cross-region latency".toList, "CPU exhaustion".toList,
   "Disk I/O bottlenecks".toList, "Database connection pool exhaustion".toList,
   "SSL/TLS handshake failures".toList, "DNS resolution failures".toList,
   "Load balancer failures".toList, "Container orchestration failures".toList]

/-- Embedding of `determine_ruled_out_risks` (ruled_out.py lines 19-50). -/
def determine_ruled_out_risks (llm : Llm) (parsed_doc_text : Str)
    (matched : List FailurePatternMatch) : List Str :=
  if parsed_doc_text.isEmpty then []
  else
    let names := matched.map (fun m => m.name)
    let snippet := parsed_doc_text.take 2000
    match llm (Prompt.ruledOut snippet names COMMON_RISKS) with
    | none => []
    | some response =>
      if response.isEmpty || pyIn "none".toList (lowerStr response) ||
          pyIn "empty".toList (lowerStr response) then []
      else (COMMON_RISKS.filter (fun r => pyIn (lowerStr r) (lowerStr response))).take 5

/-! ### Summary synthesis (`app/synthesis.py`)

`synthesize_summary` is declared `async` (synthesis.py line 9).  Its body is
modelled here as a function of the oracle: this is what would run if the
coroutine it returns were awaited.  `app/report.py` calls it without `await`
(report.py line 74), so on the `build_report` path this body never executes;
see `SummarySlot` below. -/

def noModesSummary : Str :=
  ("No significant failure patterns detected based on the provided RFC, " ++
   "design document, or PR description.").toList

/-- The deterministic fallback sentence (synthesis.py lines 32-33, 37-38, 41-42),
built from the name of the first (top-ranked) failure mode. -/
def fallbackSummary (modes : List FailurePatternMatch) : Str :=
  let primary :=
    match modes.head? with
    | some m => m.name
    | none => "failure patterns".toList
  "This design shows potential for ".toList ++ lowerStr primary ++
    ", which typically surface only under real production load or partial outages.".toList

/-- The top-3 detail lines sent to the LLM (synthesis.py lines 18-23),
carried as their underlying data. -/
def modesDetail (modes : List FailurePatternMatch) :
    List (Str × ConfidenceLevel × List Str) :=
  (modes.take 3).map (fun m => (m.name, m.confidence, m.trigger_conditions.take 2))

/-- Embedding of `synthesize_summary` (synthesis.py lines 9-42). -/
def synthesize_summary (llm : Llm) (modes : List FailurePatternMatch) : Str :=
  if modes.isEmpty then noModesSummary
  else
    match llm (Prompt.synthesisSummary (modesDetail modes)) with
    | none => fallbackSummary modes
    | some s =>
      if s.isEmpty || pyIn "Error:".toList s then fallbackSummary modes else s

/-! ### Report assembler (`app/report.py`) -/

/-- Embedding of `generate_why_this_matters` (report.py lines 9-27).  Both Python falsy
checks are modelled: a `None` primary concern and an empty-string one.  The
`try/except` around `call_llm` returns `None` on failure, which coincides with
the oracle's `none`. -/
def generate_why_this_matters (llm : Llm) (primary_concern : Option Str)
    (failure_modes : List FailurePatternMatch) : Option Str :=
  match primary_concern with
  | none => none
  | some pc =>
    if pc.isEmpty || failure_modes.isEmpty then none
    else
      match failure_modes.find? (fun m => decide (m.name = pc)) with
      | none => none
      | some m => llm (Prompt.whyThisMatters pc m.trigger_conditions m.why_subtle)

def keyHigh (m : FailurePatternMatch) : Nat :=
  if m.confidence = ConfidenceLevel.high then 1 else 0

def keyMed (m : FailurePatternMatch) : Nat :=
  if m.confidence = ConfidenceLevel.medium then 1 else 0

/-- Value of `m.match_strength or 0` (report.py line 42). -/
def strengthKey (m : FailurePatternMatch) : ℚ :=
  match m.match_strength with
  | none => 0
  | some q => q

/-- Lexicographic comparison of the composite sort key
`(m.confidence == high, m.match_strength or 0, m.confidence == medium)`
(report.py lines 40-44); Python compares bools as the integers 0 and 1. -/
def sortKeyLE (a b : FailurePatternMatch) : Prop :=
  keyHigh a < keyHigh b ∨
    (keyHigh a = keyHigh b ∧
      (strengthKey a < strengthKey b ∨
        (strengthKey a = strengthKey b ∧ keyMed a ≤ keyMed b)))

instance : DecidableRel sortKeyLE := fun a b => by
  unfold sortKeyLE; infer_instance

/-- Relation placing `a` before `b` under `sorted(..., reverse=True)`. -/
def rankRel (a b : FailurePatternMatch) : Prop := sortKeyLE b a

instance : DecidableRel rankRel := fun a b => by
  unfold rankRel; infer_instance

/-- Embedding of `sorted(failure_modes, key=..., reverse=True)` (report.py lines 38-46):
a stable descending sort by the composite key, which insertion sort with
`rankRel` realises. -/
def sortFailureModes (modes : List FailurePatternMatch) : List FailurePatternMatch :=
  List.insertionSort rankRel modes

/-- The dictionary built by `get_version_info` (versioning.py lines 33-43);
its entries come from the filesystem and environment, so it is part of the
external environment of the assembler. -/
structure VersionInfo where
  pattern_version : Str
  model_name : Str
  temperature : ℚ
  confidence_threshold_high : Nat
  confidence_threshold_medium : Nat
deriving DecidableEq, Repr

/-- The external environment of `build_report`: the narrative collaborator and
the version information. -/
structure Ext where
  llm : Llm
  version_info : VersionInfo

structure SecondOpinionReport where
  overall_risk : ConfidenceLevel
  primary_concern : Option Str
  why_this_matters : Option Str := none
  summary : Str
  confidence_note : Str :=
    "Confidence reflects similarity to known failure patterns, not probability.".toList
  failure_modes : List FailurePatternMatch
  assumptions : List Assumption
  assumptions_note : Str :=
    "These assumptions are inferred from the design and are not validated.".toList
  ruled_out : List Str
  ruled_out_note : Str :=
    "Reviewed and deprioritized based on the provided design:".toList
  unknowns : List Str := []
  version_info : Option VersionInfo := none
  document_sections : Option (List Str) := none

/-- The fallback summary installed before the synthesis call (report.py line 70). -/
def defaultSummaryText : Str := "See failure modes below.".toList

/-- The value report.py's local variable `summary_text` holds after lines
70-77: either the default string, or — whenever there are failure modes — the
coroutine object returned by calling the async `synthesize_summary` without
`await` at line 74.  Creating a coroutine raises nothing, so the `except` of
lines 75-77 is dead, and the coroutine's body (including its LLM call and its
templated fallback sentence) never runs; the payload records the argument the
un-executed coroutine closes over. -/
inductive SummarySlot where
  | str (s : Str)
  | coroutine (modes : List FailurePatternMatch)
deriving DecidableEq, Repr

/-- The exception pydantic raises when a field of `SecondOpinionReport`
receives a value of the wrong type (models.py line 45, `summary : str`). -/
inductive PydanticValidationError where
  | typeMismatch (field : Str)
deriving DecidableEq, Repr

/-- Embedding of `build_report` (report.py lines 29-93).  Line 74 calls the
async `synthesize_summary` without `await`: the call returns a coroutine
object and raises nothing, so `summary_text` holds the coroutine whenever
there are failure modes, and the `SecondOpinionReport` construction at
line 82 then raises a pydantic validation error for the `summary : str`
field (models.py line 45) instead of returning a report.  Fallible, so the
embedding returns `Except`.  The `if parsed_doc else None` guard of line 80
is for a `None` argument that the embedding's types exclude. -/
def build_report (ext : Ext) (failure_modes : List FailurePatternMatch)
    (assumptions : List Assumption) (parsed_doc : ParsedDocument)
    (parsed_doc_text : Str := []) (pattern_library : Option (List FailurePattern) := none)
    (contextual_metadata : Option ContextualMetadata := none) :
    Except PydanticValidationError SecondOpinionReport :=
  let sorted_modes := sortFailureModes failure_modes
  let overall_risk :=
    if failure_modes.any (fun m => decide (m.confidence = ConfidenceLevel.high)) then
      ConfidenceLevel.high
    else if !failure_modes.isEmpty then ConfidenceLevel.medium
    else ConfidenceLevel.low
  let primary : Option Str := sorted_modes.head?.map (fun m => m.name)
  let why_matters := generate_why_this_matters ext.llm primary sorted_modes
  let ruled_out := determine_ruled_out_risks ext.llm parsed_doc_text sorted_modes
  let unknowns :=
    match pattern_library with
    | some lib => detect_unknowns parsed_doc sorted_modes lib contextual_metadata
    | none => []
  let summary_text : SummarySlot :=
    if sorted_modes.isEmpty then SummarySlot.str defaultSummaryText
    else SummarySlot.coroutine sorted_modes
  match summary_text with
  | SummarySlot.str s =>
    Except.ok
      { overall_risk := overall_risk
        primary_concern := primary
        why_this_matters := why_matters
        summary := s
        failure_modes := sorted_modes
        assumptions := assumptions
        ruled_out := ruled_out
        unknowns := unknowns
        version_info := some ext.version_info
        document_sections := some (parsed_doc.sections.map (fun s => s.heading)) }
  | SummarySlot.coroutine _ =>
    Except.error (PydanticValidationError.typeMismatch "summary".toList)

/-! ### Pattern library loading -/

inductive ConfigurationError where
  | configurationError (msg : Str)
deriving DecidableEq, Repr

/-- Modelled from the spec: a raw record of the external pattern file.
`FailurePatternLibrary` is referenced from `app/api.py`, `app/main.py`,
`app/report.py`, `app/unknowns.py` and `app/pattern_matcher.py`, but its
definition is not among the sources; spec §3 and §4.1 give its contract.
Required keys may be absent (`none`), which makes the record structurally
invalid. -/
structure RawPatternRecord where
  id : Option Str := none
  name : Option Str := none
  signals : Option (List Str) := none
  trigger_conditions : Option (List Str) := none
  why_subtle : Option (List Str) := none
  discussion_questions : Option (List Str) := none
  safety_signals : Option (List Str) := none
  impact_surface : Option (List Str) := none
  required_context : Option (List Str) := none
deriving DecidableEq, Repr

/-- Modelled from the spec: structural validity of a record — every field the
engine reads unconditionally must be present (spec §3 data model). -/
def validRecord (r : RawPatternRecord) : Bool :=
  r.id.isSome && r.name.isSome && r.signals.isSome && r.trigger_conditions.isSome &&
    r.why_subtle.isSome && r.discussion_questions.isSome

/-- Conversion of a structurally valid record to a pattern; optional keys
default to the empty list (`pattern.get(key, [])`). -/
def recordToPattern (r : RawPatternRecord) : FailurePattern :=
  { id := r.id.getD []
    name := r.name.getD []
    signals := r.signals.getD []
    trigger_conditions := r.trigger_conditions.getD []
    why_subtle := r.why_subtle.getD []
    discussion_questions := r.discussion_questions.getD []
    safety_signals := r.safety_signals.getD []
    impact_surface := r.impact_surface.getD []
    required_context := r.required_context.getD [] }

/-- Modelled from the spec: the possible states of the external pattern-file
source — a missing file, unparsable content, parsed content that is not a
list, or a parsed list of records. -/
inductive PatternSource where
  | missing
  | parseFailure
  | notAList
  | records (rs : List RawPatternRecord)
deriving DecidableEq, Repr

/-- Modelled from the spec: `FailurePatternLibrary` load (spec §4.1): fails
with a `ConfigurationError` if the source is missing, is not a non-empty list
of structurally valid records, or fails to parse; otherwise yields the
patterns in file order (the order `all()` returns). -/
def libraryLoad (src : PatternSource) : Except ConfigurationError (List FailurePattern) :=
  match src with
  | PatternSource.missing =>
    Except.error (ConfigurationError.configurationError "pattern library source missing".toList)
  | PatternSource.parseFailure =>
    Except.error (ConfigurationError.configurationError "pattern library failed to parse".toList)
  | PatternSource.notAList =>
    Except.error (ConfigurationError.configurationError "pattern library is not a list".toList)
  | PatternSource.records rs =>
    if rs.isEmpty then
      Except.error (ConfigurationError.configurationError "pattern library is empty".toList)
    else if rs.all validRecord then Except.ok (rs.map recordToPattern)
    else
      Except.error (ConfigurationError.configurationError "structurally invalid pattern record".toList)

/-! ### Derived forms used in statements -/

/-- The evidence line a signal contributes, when it hits. -/
def sigEvOf (doc : ParsedDocument) (s : Str) : Option Evidence :=
  if (sectionsHit s doc).isEmpty then none
  else some (Evidence.signal s (sectionsHit s doc))

/-- The evidence line an assumption contributes, when it qualifies. -/
def asmEvOf (p : FailurePattern) (a : Assumption) : Option Evidence :=
  if assumptionQualifies p a then
    some (Evidence.assumption a.source_section (a.text.take 60))
  else none

/-- The evidence line a mitigation phrase contributes, when it is found. -/
def mitEvOf (doc : ParsedDocument) (m : Str) : Option Evidence :=
  if (mitigationSections m doc).isEmpty then none
  else some (Evidence.mitigation (mitigationSections m doc) m)

/-- The pattern ids of the `FailurePatternMatch` elements of a matcher result. -/
def fpmIds (items : List MatcherItem) : List Str :=
  items.filterMap (fun it =>
    match it with
    | MatcherItem.fpm m => some m.pattern_id
    | MatcherItem.regexHit _ => none)

/-- The final-score formula exactly as the specification words it: counting
distinct signal phrases and distinct mitigation phrases (`List.dedup`), rather
than list entries. -/
def claimFinalScoreDistinct (p : FailurePattern) (doc : ParsedDocument)
    (assumptions : List Assumption) : ℚ :=
  max 1 ((p.signals.dedup.countP (signalHitB doc) : ℚ)
    + (1/2) * (assumptions.countP (assumptionQualifies p) : ℚ)
    - (3/10) * ((effectiveSafetySignals p).dedup.countP (mitigationHitB doc) : ℚ))

/-! ### Concrete instances used by the evaluation theorems -/

/-- A one-section document containing the phrases alpha and beta. -/
def tdoc : ParsedDocument :=
  ⟨[{ heading := "Overview".toList, content := "alpha beta gamma delta".toList }]⟩

def tp1 : FailurePattern :=
  { id := "p1".toList, name := "Pattern One".toList, signals := ["alpha".toList],
    trigger_conditions := [], why_subtle := [], discussion_questions := [] }

def tp2 : FailurePattern :=
  { id := "p2".toList, name := "Pattern Two".toList, signals := ["beta".toList],
    trigger_conditions := [], why_subtle := [], discussion_questions := [] }

/-- A pattern whose signals list repeats the same phrase twice. -/
def tpd : FailurePattern :=
  { id := "d".toList, name := "Dup".toList,
    signals := ["timeout".toList, "timeout".toList],
    trigger_conditions := [], why_subtle := [], discussion_questions := [],
    safety_signals := ["zzz".toList] }

def tdoc2 : ParsedDocument :=
  ⟨[{ heading := "Overview".toList, content := "a timeout occurred here now".toList }]⟩

/-- A three-signal pattern, every signal of which hits `tdoc3`. -/
def tp3 : FailurePattern :=
  { id := "p3".toList, name := "Pattern Three".toList,
    signals := ["alpha".toList, "beta".toList, "gamma".toList],
    trigger_conditions := [], why_subtle := [], discussion_questions := [],
    safety_signals := ["zzz".toList] }

def tdoc3 : ParsedDocument :=
  ⟨[{ heading := "Overview".toList, content := "alpha beta gamma together".toList }]⟩

/-- A hand-built failure mode for exercising the report assembler. -/
def m0 : FailurePatternMatch :=
  { pattern_id := "p0".toList, name := "Retry Storm".toList,
    confidence := ConfidenceLevel.medium, match_strength := some 1,
    evidence := [], trigger_conditions := [], why_subtle := [],
    impact_surface := [], discussion_questions := [] }

def vi0 : VersionInfo :=
  { pattern_version := [], model_name := [], temperature := 0,
    confidence_threshold_high := 3, confidence_threshold_medium := 1 }

/-- The narrative collaborator with every call failing. -/
def failLlm : Llm := fun _ => none

/-- A narrative collaborator answering every call with a fixed sentence. -/
def riskLlm : Llm := fun _ =>
  some "Memory pressure and CPU exhaustion are clearly inapplicable here".toList

def ext0 : Ext := { llm := failLlm, version_info := vi0 }

/-- The empty document. -/
def pdoc0 : ParsedDocument := ⟨[]⟩

/-! ### Loop invariants of the matcher -/

theorem signalFold_go_fst (doc : ParsedDocument) :
    ∀ (sigs : List Str) (init : Nat × List Evidence),
      (sigs.foldl (signalStep doc) init).1 = init.1 + sigs.countP (signalHitB doc) := by
  intro sigs
  induction sigs with
  | nil => intro init; simp
  | cons s rest ih =>
    intro init
    rw [List.foldl_cons]
    cases hb : (sectionsHit s doc).isEmpty <;>
      simp [signalStep, signalHitB, hb, ih, List.countP_cons] <;> omega

theorem signalFold_go_snd (doc : ParsedDocument) :
    ∀ (sigs : List Str) (init : Nat × List Evidence),
      (sigs.foldl (signalStep doc) init).2 = init.2 ++ sigs.filterMap (sigEvOf doc) := by
  intro sigs
  induction sigs with
  | nil => intro init; simp
  | cons s rest ih =>
    intro init
    rw [List.foldl_cons]
    cases hb : (sectionsHit s doc).isEmpty <;>
      simp [signalStep, sigEvOf, hb, ih, List.filterMap_cons]

theorem signalScore_eq_countP (p : FailurePattern) (doc : ParsedDocument) :
    signalScore p doc = p.signals.countP (signalHitB doc) := by
  unfold signalScore signalFold
  rw [signalFold_go_fst]
  simp

theorem signalScore_of_no_signals (p : FailurePattern) (doc : ParsedDocument)
    (h : p.signals = []) : signalScore p doc = 0 := by
  rw [signalScore_eq_countP, h]; rfl

theorem sigEv_length (doc : ParsedDocument) (sigs : List Str) :
    (sigs.filterMap (sigEvOf doc)).length = sigs.countP (signalHitB doc) := by
  induction sigs with
  | nil => rfl
  | cons s rest ih =>
    cases hb : (sectionsHit s doc).isEmpty <;>
      simp [sigEvOf, signalHitB, hb, ih, List.filterMap_cons, List.countP_cons]

theorem sigEv_shape (doc : ParsedDocument) (sigs : List Str) (e : Evidence)
    (h : e ∈ sigs.filterMap (sigEvOf doc)) : ∃ s secs, e = Evidence.signal s secs := by
  rcases List.mem_filterMap.mp h with ⟨s, _, hs⟩
  unfold sigEvOf at hs
  by_cases hb : (sectionsHit s doc).isEmpty
  · rw [if_pos hb] at hs; cases hs
  · rw [if_neg hb] at hs
    exact ⟨s, sectionsHit s doc, (Option.some_inj.mp hs).symm⟩

theorem assumptionFold_go_fst (p : FailurePattern) :
    ∀ (asms : List Assumption) (init : ℚ × List Evidence),
      (asms.foldl (assumptionStep p) init).1 =
        init.1 + (1/2) * (asms.countP (assumptionQualifies p) : ℚ) := by
  intro asms
  induction asms with
  | nil => intro init; simp
  | cons a rest ih =>
    intro init
    rw [List.foldl_cons]
    cases hq : assumptionQualifies p a <;>
      simp [assumptionStep, hq, ih, List.countP_cons] <;> push_cast <;> ring

theorem assumptionFold_go_snd (p : FailurePattern) :
    ∀ (asms : List Assumption) (init : ℚ × List Evidence),
      (asms.foldl (assumptionStep p) init).2 = init.2 ++ asms.filterMap (asmEvOf p) := by
  intro asms
  induction asms with
  | nil => intro init; simp
  | cons a rest ih =>
    intro init
    rw [List.foldl_cons]
    cases hq : assumptionQualifies p a <;>
      simp [assumptionStep, asmEvOf, hq, ih, List.filterMap_cons]

theorem assumptionBonus_eq_countP (p : FailurePattern) (asms : List Assumption) :
    assumptionBonus p asms = (1/2) * (asms.countP (assumptionQualifies p) : ℚ) := by
  unfold assumptionBonus assumptionFold
  rw [assumptionFold_go_fst]
  ring

theorem mitigationFold_go_fst (doc : ParsedDocument) :
    ∀ (phrases : List Str) (init : ℚ × List Evidence),
      (phrases.foldl (mitigationStep doc) init).1 =
        init.1 + (3/10) * (phrases.countP (mitigationHitB doc) : ℚ) := by
  intro phrases
  induction phrases with
  | nil => intro init; simp
  | cons s rest ih =>
    intro init
    rw [List.foldl_cons]
    cases hb : (mitigationSections s doc).isEmpty <;>
      simp [mitigationStep, mitigationHitB, hb, ih, List.countP_cons] <;>
        push_cast <;> ring

theorem mitigationFold_go_snd (doc : ParsedDocument) :
    ∀ (phrases : List Str) (init : ℚ × List Evidence),
      (phrases.foldl (mitigationStep doc) init).2 =
        init.2 ++ phrases.filterMap (mitEvOf doc) := by
  intro phrases
  induction phrases with
  | nil => intro init; simp
  | cons s rest ih =>
    intro init
    rw [List.foldl_cons]
    cases hb : (mitigationSections s doc).isEmpty <;>
      simp [mitigationStep, mitEvOf, hb, ih, List.filterMap_cons]

theorem mitigationPenalty_eq_countP (p : FailurePattern) (doc : ParsedDocument) :
    mitigationPenalty p doc =
      (3/10) * ((effectiveSafetySignals p).countP (mitigationHitB doc) : ℚ) := by
  unfold mitigationPenalty mitigationFold
  rw [mitigationFold_go_fst]
  ring

theorem evidenceOf_decomp (p : FailurePattern) (doc : ParsedDocument)
    (asms : List Assumption) :
    evidenceOf p doc asms =
      p.signals.filterMap (sigEvOf doc) ++
        (asms.filterMap (asmEvOf p) ++
          (effectiveSafetySignals p).filterMap (mitEvOf doc)) := by
  unfold evidenceOf mitigationFold assumptionFold signalFold
  rw [mitigationFold_go_snd, assumptionFold_go_snd, signalFold_go_snd]
  simp [List.append_assoc]

/-! ### Provenance of matcher output elements -/

theorem fpm_not_mem_regexHits (hits : List Nat) (m : FailurePatternMatch) :
    MatcherItem.fpm m ∉ hits.map MatcherItem.regexHit := by
  intro h
  rcases List.mem_map.mp h with ⟨x, _, hx⟩
  cases hx

theorem fpm_mem_processPattern (doc : ParsedDocument) (asms : List Assumption)
    (acc : List MatcherItem) (p : FailurePattern) (m : FailurePatternMatch)
    (h : MatcherItem.fpm m ∈ processPattern doc asms acc p) :
    MatcherItem.fpm m ∈ acc ∨ (1 ≤ signalScore p doc ∧ m = buildMatch p doc asms) := by
  simp only [processPattern] at h
  by_cases hsc : signalScore p doc = 0
  · rw [if_pos hsc] at h
    cases hb : (p.signals.isEmpty || doc.sections.isEmpty) <;> rw [hb] at h
    · exact absurd h (fpm_not_mem_regexHits _ _)
    · exact Or.inl h
  · rw [if_neg hsc] at h
    rcases List.mem_append.mp h with h1 | h2
    · cases hb : (p.signals.isEmpty || doc.sections.isEmpty) <;> rw [hb] at h1
      · exact absurd h1 (fpm_not_mem_regexHits _ _)
      · exact Or.inl h1
    · refine Or.inr ⟨Nat.one_le_iff_ne_zero.mpr hsc, ?_⟩
      rcases List.mem_singleton.mp h2 with he
      cases he; rfl

theorem fpm_mem_foldl (doc : ParsedDocument) (asms : List Assumption) :
    ∀ (lib : List FailurePattern) (acc : List MatcherItem) (m : FailurePatternMatch),
      MatcherItem.fpm m ∈ lib.foldl (processPattern doc asms) acc →
      MatcherItem.fpm m ∈ acc ∨
        ∃ p, p ∈ lib ∧ 1 ≤ signalScore p doc ∧ m = buildMatch p doc asms := by
  intro lib
  induction lib with
  | nil => intro acc m h; exact Or.inl h
  | cons p rest ih =>
    intro acc m h
    rw [List.foldl_cons] at h
    rcases ih _ _ h with h1 | ⟨q, hq, hsc, he⟩
    · rcases fpm_mem_processPattern doc asms acc p m h1 with h2 | ⟨hsc, he⟩
      · exact Or.inl h2
      · exact Or.inr ⟨p, List.mem_cons_self _ _, hsc, he⟩
    · exact Or.inr ⟨q, List.mem_cons_of_mem _ hq, hsc, he⟩

theorem fpm_mem_match_patterns {doc : ParsedDocument} {lib : List FailurePattern}
    {asms : List Assumption} {m : FailurePatternMatch}
    (h : MatcherItem.fpm m ∈ match_patterns doc lib asms) :
    ∃ p, p ∈ lib ∧ 1 ≤ signalScore p doc ∧ m = buildMatch p doc asms := by
  simp only [match_patterns] at h
  split at h
  · cases h
  · rcases fpm_mem_foldl doc asms lib [] m h with h0 | hex
    · cases h0
    · exact hex

/-! ### The composite ranking relation -/

theorem sortKeyLE_total (a b : FailurePatternMatch) : sortKeyLE a b ∨ sortKeyLE b a := by
  unfold sortKeyLE
  rcases lt_trichotomy (keyHigh a) (keyHigh b) with h | h | h
  · exact Or.inl (Or.inl h)
  · rcases lt_trichotomy (strengthKey a) (strengthKey b) with h2 | h2 | h2
    · exact Or.inl (Or.inr ⟨h, Or.inl h2⟩)
    · rcases Nat.le_total (keyMed a) (keyMed b) with h3 | h3
      · exact Or.inl (Or.inr ⟨h, Or.inr ⟨h2, h3⟩⟩)
      · exact Or.inr (Or.inr ⟨h.symm, Or.inr ⟨h2.symm, h3⟩⟩)
    · exact Or.inr (Or.inr ⟨h.symm, Or.inl h2⟩)
  · exact Or.inr (Or.inl h)

theorem sortKeyLE_trans (a b c : FailurePatternMatch)
    (hab : sortKeyLE a b) (hbc : sortKeyLE b c) : sortKeyLE a c := by
  unfold sortKeyLE at hab hbc ⊢
  rcases hab with h1 | ⟨e1, h1⟩ <;> rcases hbc with h2 | ⟨e2, h2⟩
  · exact Or.inl (h1.trans h2)
  · exact Or.inl (e2 ▸ h1)
  · exact Or.inl (e1 ▸ h2)
  · refine Or.inr ⟨e1.trans e2, ?_⟩
    rcases h1 with q1 | ⟨eq1, m1⟩ <;> rcases h2 with q2 | ⟨eq2, m2⟩
    · exact Or.inl (q1.trans q2)
    · exact Or.inl (eq2 ▸ q1)
    · exact Or.inl (eq1 ▸ q2)
    · exact Or.inr ⟨eq1.trans eq2, m1.trans m2⟩

instance : IsTotal FailurePatternMatch rankRel :=
  ⟨fun a b => Or.symm (sortKeyLE_total a b)⟩

instance : IsTrans FailurePatternMatch rankRel :=
  ⟨fun a b c hab hbc => sortKeyLE_trans c b a hbc hab⟩

theorem keyHigh_eq_one (m : FailurePatternMatch)
    (h : m.confidence = ConfidenceLevel.high) : keyHigh m = 1 := by
  simp [keyHigh, h]

theorem keyHigh_of_ne (m : FailurePatternMatch)
    (h : ¬ m.confidence = ConfidenceLevel.high) : keyHigh m = 0 := by
  simp [keyHigh, h]

theorem rankRel_consequences (a b : FailurePatternMatch) (h : rankRel a b) :
    (b.confidence = ConfidenceLevel.high → a.confidence = ConfidenceLevel.high) ∧
    (keyHigh a = keyHigh b → strengthKey b ≤ strengthKey a) ∧
    (keyHigh a = keyHigh b → strengthKey a = strengthKey b →
      b.confidence = ConfidenceLevel.medium → a.confidence = ConfidenceLevel.medium) := by
  unfold rankRel sortKeyLE at h
  refine ⟨?_, ?_, ?_⟩
  · intro hb
    by_cases ha : a.confidence = ConfidenceLevel.high
    · exact ha
    · exfalso
      rw [keyHigh_eq_one b hb, keyHigh_of_ne a ha] at h
      rcases h with h | ⟨e, _⟩
      · omega
      · omega
  · intro he
    rcases h with h | ⟨_, h⟩
    · rw [he] at h; exact absurd h (lt_irrefl _)
    · rcases h with h | ⟨e, _⟩
      · exact h.le
      · exact e.le
  · intro he hs hbm
    rcases h with h | ⟨_, h⟩
    · rw [he] at h; exact absurd h (lt_irrefl _)
    · rcases h with h | ⟨_, hm⟩
      · rw [hs] at h; exact absurd h (lt_irrefl _)
      · by_cases ma : a.confidence = ConfidenceLevel.medium
        · exact ma
        · exfalso
          have hb1 : keyMed b = 1 := by simp [keyMed, hbm]
          have ha0 : keyMed a = 0 := by simp [keyMed, ma]
          omega

/-! ### The two outcomes of the report assembler -/

theorem sortFailureModes_length (modes : List FailurePatternMatch) :
    (sortFailureModes modes).length = modes.length :=
  (List.perm_insertionSort rankRel modes).length_eq

theorem sortFailureModes_cons_isEmpty (m : FailurePatternMatch)
    (ms : List FailurePatternMatch) : (sortFailureModes (m :: ms)).isEmpty = false := by
  cases hE : sortFailureModes (m :: ms) with
  | nil =>
    have hl := sortFailureModes_length (m :: ms)
    rw [hE] at hl
    simp at hl
  | cons a t => rfl

/-- With at least one failure mode, `summary_text` is the un-awaited
coroutine and the pydantic construction raises: `build_report` yields an
error, never a report. -/
theorem build_report_cons_eq (ext : Ext) (m : FailurePatternMatch)
    (ms : List FailurePatternMatch) (asms : List Assumption)
    (pdoc : ParsedDocument) (ptext : Str) (plib : Option (List FailurePattern))
    (meta : Option ContextualMetadata) :
    build_report ext (m :: ms) asms pdoc ptext plib meta =
      Except.error (PydanticValidationError.typeMismatch "summary".toList) := by
  simp only [build_report]
  rw [sortFailureModes_cons_isEmpty]
  rfl

/-- With no failure modes, the construction succeeds: the summary is the
default string, the primary concern is absent, and `why_this_matters` is
`None` (report.py line 11 returns `None` for a missing primary concern). -/
theorem build_report_nil_eq (ext : Ext) (asms : List Assumption)
    (pdoc : ParsedDocument) (ptext : Str) (plib : Option (List FailurePattern))
    (meta : Option ContextualMetadata) :
    build_report ext [] asms pdoc ptext plib meta =
      Except.ok
        { overall_risk := ConfidenceLevel.low
          primary_concern := none
          why_this_matters := none
          summary := defaultSummaryText
          failure_modes := []
          assumptions := asms
          ruled_out := determine_ruled_out_risks ext.llm ptext []
          unknowns :=
            match plib with
            | some lib => detect_unknowns pdoc [] lib meta
            | none => []
          version_info := some ext.version_info
          document_sections := some (pdoc.sections.map (fun s => s.heading)) } := rfl

/-! ### Claim theorems -/

/-- Claim C1: the specification says `match_patterns` returns exactly one
`FailurePatternMatch` per non-zero-scoring pattern and nothing else.  The code
violates this: at matcher.py line 66 the result accumulator `matches` is
reassigned to `list(re.finditer(...))` inside the signal loop, so earlier
patterns' matches are discarded and leftover regex match objects remain in
the returned list.  Evaluated here at a two-pattern library where both
patterns score 1: the result contains a leftover regex hit and only the
second pattern's match. -/
theorem claim_c1_matcher_output_corruption :
    1 ≤ signalScore tp1 tdoc ∧ 1 ≤ signalScore tp2 tdoc ∧
    match_patterns tdoc [tp1, tp2] [] =
      [MatcherItem.regexHit 6, MatcherItem.fpm (buildMatch tp2 tdoc [])] ∧
    fpmIds (match_patterns tdoc [tp1, tp2] []) = [tp2.id] :=
  ⟨by decide, by decide, rfl, by decide⟩

/-- Claim C2, counterexample: the claim counts distinct signal phrases, but
the code adds 1 per entry of the signals list, so a pattern whose list repeats
a phrase is scored per repetition: on `tpd` (signals `timeout, timeout`) over
a document containing `timeout` once, the code's final score is 2 while the
claimed distinct-phrase formula yields 1. -/
theorem claim_c2_distinct_counterexample :
    1 ≤ signalScore tpd tdoc2 ∧
    finalScore tpd tdoc2 [] ≠ claimFinalScoreDistinct tpd tdoc2 [] := by
  refine ⟨by decide, ?_⟩
  have e1 : finalScore tpd tdoc2 [] = 2 := by
    unfold finalScore
    rw [show signalScore tpd tdoc2 = 2 from by decide,
      show assumptionBonus tpd [] = 0 from rfl,
      show mitigationPenalty tpd tdoc2 = 0 from rfl]
    norm_num
  have e2 : claimFinalScoreDistinct tpd tdoc2 [] = 1 := by
    unfold claimFinalScoreDistinct
    rw [show tpd.signals.dedup.countP (signalHitB tdoc2) = 1 from by decide,
      show List.countP (assumptionQualifies tpd) [] = 0 from rfl,
      show (effectiveSafetySignals tpd).dedup.countP (mitigationHitB tdoc2) = 0 from by decide]
    norm_num
  rw [e1, e2]
  norm_num

/-- Claim C2 (amended): for every pattern that fires at least one signal, the
final score equals the number of entries of the signals list that match at
least one section, plus 0.5 per assumption containing one of the first three
lowercased tokens of the pattern name, minus 0.3 per entry of the effective
safety-signal list (pattern-specific, else the default 8-phrase list) found
in some section, floored at 1.  For duplicate-free signal and safety lists
this coincides with the claimed distinct-phrase counts. -/
theorem claim_c2_final_score_formula (p : FailurePattern) (doc : ParsedDocument)
    (asms : List Assumption) (h : 1 ≤ signalScore p doc) :
    finalScore p doc asms =
      max 1 ((p.signals.countP (signalHitB doc) : ℚ)
        + (1/2) * (asms.countP (assumptionQualifies p) : ℚ)
        - (3/10) * ((effectiveSafetySignals p).countP (mitigationHitB doc) : ℚ)) := by
  unfold finalScore
  rw [signalScore_eq_countP, assumptionBonus_eq_countP, mitigationPenalty_eq_countP]

/-- Witness for the amended claim C2 at a concrete firing pattern. -/
theorem claim_c2_witness :
    1 ≤ signalScore tp1 tdoc ∧
    finalScore tp1 tdoc [] =
      max 1 ((tp1.signals.countP (signalHitB tdoc) : ℚ)
        + (1/2) * (List.countP (assumptionQualifies tp1) [] : ℚ)
        - (3/10) * ((effectiveSafetySignals tp1).countP (mitigationHitB tdoc) : ℚ)) :=
  ⟨by decide, claim_c2_final_score_formula tp1 tdoc [] (by decide)⟩

/-- Claim C3: every match the engine produces carries the confidence tier
high when the final score is at least 3, else medium when the final score is
at least 2 or the assumption bonus is positive, else low; a positive bonus
never yields low, and a final score of at least 3 always yields high. -/
theorem claim_c3_confidence_tiers (doc : ParsedDocument) (lib : List FailurePattern)
    (asms : List Assumption) (m : FailurePatternMatch)
    (h : MatcherItem.fpm m ∈ match_patterns doc lib asms) :
    ∃ p, p ∈ lib ∧
      m.confidence =
        (if 3 ≤ finalScore p doc asms then ConfidenceLevel.high
         else if 2 ≤ finalScore p doc asms ∨ 0 < assumptionBonus p asms then
           ConfidenceLevel.medium
         else ConfidenceLevel.low) ∧
      (0 < assumptionBonus p asms → m.confidence ≠ ConfidenceLevel.low) ∧
      (3 ≤ finalScore p doc asms → m.confidence = ConfidenceLevel.high) := by
  rcases fpm_mem_match_patterns h with ⟨p, hp, hsc, rfl⟩
  refine ⟨p, hp, rfl, ?_, ?_⟩
  · intro hb
    show confidenceOf p doc asms ≠ ConfidenceLevel.low
    unfold confidenceOf
    split_ifs with h1 h2
    · simp
    · simp
    · exact absurd (Or.inr hb) h2
  · intro h3
    show confidenceOf p doc asms = ConfidenceLevel.high
    unfold confidenceOf
    rw [if_pos h3]

/-- Witness for claim C3: a concrete produced match. -/
theorem claim_c3_witness :
    MatcherItem.fpm (buildMatch tp2 tdoc []) ∈ match_patterns tdoc [tp1, tp2] [] ∧
    ∃ p, p ∈ [tp1, tp2] ∧
      (buildMatch tp2 tdoc []).confidence =
        (if 3 ≤ finalScore p tdoc [] then ConfidenceLevel.high
         else if 2 ≤ finalScore p tdoc [] ∨ 0 < assumptionBonus p [] then
           ConfidenceLevel.medium
         else ConfidenceLevel.low) ∧
      (0 < assumptionBonus p [] → (buildMatch tp2 tdoc []).confidence ≠ ConfidenceLevel.low) ∧
      (3 ≤ finalScore p tdoc [] → (buildMatch tp2 tdoc []).confidence = ConfidenceLevel.high) := by
  have hmem : MatcherItem.fpm (buildMatch tp2 tdoc []) ∈ match_patterns tdoc [tp1, tp2] [] := by
    rw [show match_patterns tdoc [tp1, tp2] [] =
      [MatcherItem.regexHit 6, MatcherItem.fpm (buildMatch tp2 tdoc [])] from rfl]
    exact List.mem_cons_of_mem _ (List.mem_cons_self _ _)
  exact ⟨hmem, claim_c3_confidence_tiers tdoc [tp1, tp2] [] _ hmem⟩

/-- Claim C4: loading the pattern library fails with a `ConfigurationError`
exactly when the source is missing, unparsable, not a list, an empty list, or
a list with a structurally invalid record; in particular a missing file
always fails. -/
theorem claim_c4_library_load_errors :
    (∃ e, libraryLoad PatternSource.missing = Except.error e) ∧
    ∀ src, (∃ e, libraryLoad src = Except.error e) ↔
      ¬ ∃ rs, src = PatternSource.records rs ∧ rs ≠ [] ∧ rs.all validRecord = true := by
  refine ⟨⟨_, rfl⟩, ?_⟩
  intro src
  cases src with
  | missing => simp [libraryLoad]
  | parseFailure => simp [libraryLoad]
  | notAList => simp [libraryLoad]
  | records rs =>
    simp only [libraryLoad]
    by_cases he : rs.isEmpty = true
    · have hnil : rs = [] := by
        cases rs with
        | nil => rfl
        | cons a t => cases he
      subst hnil
      simp
    · rw [if_neg he]
      have hne : rs ≠ [] := by
        intro hh
        subst hh
        exact he rfl
      by_cases hv : rs.all validRecord = true
      · rw [if_pos hv]
        constructor
        · rintro ⟨e, he'⟩
          cases he'
        · intro hcon
          exact absurd ⟨rs, rfl, hne, hv⟩ hcon
      · rw [if_neg hv]
        constructor
        · intro _
          rintro ⟨rs', heq, _, hall⟩
          cases heq
          exact hv hall
        · intro _
          exact ⟨_, rfl⟩

/-- Witness for claim C4: the missing-file scenario fails. -/
theorem claim_c4_witness : ∃ e, libraryLoad PatternSource.missing = Except.error e :=
  claim_c4_library_load_errors.1

/-- Helper: with a failing collaborator, `generate_why_this_matters` always
returns `None` (report.py lines 24-27). -/
theorem gen_why_failLlm (pc : Option Str) (fm : List FailurePatternMatch) :
    generate_why_this_matters failLlm pc fm = none := by
  cases pc with
  | none => rfl
  | some s =>
    cases hb : (s.isEmpty || fm.isEmpty) with
    | true => simp [generate_why_this_matters, hb]
    | false =>
      cases hf : fm.find? (fun m => decide (m.name = s)) with
      | none => simp [generate_why_this_matters, hb, hf]
      | some m => simp [generate_why_this_matters, hb, hf, failLlm]

/-- Helper: with a failing collaborator, `determine_ruled_out_risks` returns
the empty list (ruled_out.py lines 48-50). -/
theorem det_ruled_out_failLlm (t : Str) (ms : List FailurePatternMatch) :
    determine_ruled_out_risks failLlm t ms = [] := by
  cases hb : t.isEmpty with
  | true => simp [determine_ruled_out_risks, hb]
  | false => simp [determine_ruled_out_risks, hb, failLlm]

/-- Claim C5: the claim says that when every narrative-collaborator call
fails the assembler still returns a complete report whose narrative fields
fall back to a templated sentence built from the primary concern's name.
The code cannot do this: report.py line 74 calls the async
`synthesize_summary` without `await`, so the summary field receives a
coroutine and the pydantic construction raises for every non-empty
failure-mode list, the templated fallback inside the coroutine never
running; the path that does return (no failure modes) falls back to `None`
for `why_this_matters` and to the fixed default summary.  The spec's
never-fail-outright contract and the dead `try/except` fallback of report.py
lines 73-77 mark the missing `await` as a slip. -/
theorem claim_c5_llm_failure_behaviour :
    (∀ (vi : VersionInfo) (m : FailurePatternMatch) (ms : List FailurePatternMatch)
        (asms : List Assumption) (pdoc : ParsedDocument) (ptext : Str)
        (plib : Option (List FailurePattern)) (meta : Option ContextualMetadata),
      ∃ e, build_report ⟨failLlm, vi⟩ (m :: ms) asms pdoc ptext plib meta =
        Except.error e) ∧
    (∀ (vi : VersionInfo) (asms : List Assumption) (pdoc : ParsedDocument)
        (ptext : Str) (plib : Option (List FailurePattern))
        (meta : Option ContextualMetadata),
      ∃ r, build_report ⟨failLlm, vi⟩ [] asms pdoc ptext plib meta = Except.ok r ∧
        r.why_this_matters = none ∧ r.summary = defaultSummaryText ∧ r.ruled_out = []) ∧
    (∃ e, build_report ext0 (m0 :: []) [] pdoc0 [] none none = Except.error e) := by
  refine ⟨?_, ?_, ?_⟩
  · intro vi m ms asms pdoc ptext plib meta
    exact ⟨_, build_report_cons_eq ⟨failLlm, vi⟩ m ms asms pdoc ptext plib meta⟩
  · intro vi asms pdoc ptext plib meta
    exact ⟨_, build_report_nil_eq ⟨failLlm, vi⟩ asms pdoc ptext plib meta, rfl, rfl,
      det_ruled_out_failLlm ptext []⟩
  · exact ⟨_, build_report_cons_eq ext0 m0 [] [] pdoc0 [] none none⟩

/-- Witness for claim C5: concrete instances of both outcomes. -/
theorem claim_c5_witness :
    (∃ e, build_report ⟨failLlm, vi0⟩ (m0 :: []) [] pdoc0 [] none none = Except.error e) ∧
    (∃ r, build_report ⟨failLlm, vi0⟩ [] [] pdoc0 [] none none = Except.ok r ∧
      r.why_this_matters = none ∧ r.summary = defaultSummaryText ∧ r.ruled_out = []) :=
  ⟨claim_c5_llm_failure_behaviour.1 vi0 m0 [] [] pdoc0 [] none none,
   claim_c5_llm_failure_behaviour.2.1 vi0 [] pdoc0 [] none none⟩

/-- Claim C6: the claim describes the ranked report, descending by the
composite key (high flag, then strength, then medium flag) with the primary
concern the head's name or absent without matches.  The ranking report.py
lines 38-46 compute has exactly these properties (first conjunct), any
report the assembler returns carries that ranking with the head-name primary
(second conjunct), and with no matches a report with an absent primary
concern is returned (third conjunct); but for every non-empty failure-mode
list the assembler raises before returning it, since the missing `await` at
report.py line 74 feeds a coroutine to the pydantic `summary` field (fourth
conjunct, evaluated at a one-mode input), so the claimed ranked output is
never observable. -/
theorem claim_c6_ranking_behaviour :
    (∀ modes : List FailurePatternMatch,
      List.Perm (sortFailureModes modes) modes ∧
      List.Pairwise (fun a b =>
        (b.confidence = ConfidenceLevel.high → a.confidence = ConfidenceLevel.high) ∧
        (keyHigh a = keyHigh b → strengthKey b ≤ strengthKey a) ∧
        (keyHigh a = keyHigh b → strengthKey a = strengthKey b →
          b.confidence = ConfidenceLevel.medium → a.confidence = ConfidenceLevel.medium))
        (sortFailureModes modes)) ∧
    (∀ (ext : Ext) (modes : List FailurePatternMatch) (asms : List Assumption)
        (pdoc : ParsedDocument) (ptext : Str) (plib : Option (List FailurePattern))
        (meta : Option ContextualMetadata) (r : SecondOpinionReport),
      build_report ext modes asms pdoc ptext plib meta = Except.ok r →
      r.failure_modes = sortFailureModes modes ∧
      r.primary_concern = r.failure_modes.head?.map (fun m => m.name)) ∧
    (∀ (ext : Ext) (asms : List Assumption) (pdoc : ParsedDocument) (ptext : Str)
        (plib : Option (List FailurePattern)) (meta : Option ContextualMetadata),
      ∃ r, build_report ext [] asms pdoc ptext plib meta = Except.ok r ∧
        r.primary_concern = none ∧ r.failure_modes = []) ∧
    (∃ e, build_report ext0 (m0 :: []) [] pdoc0 [] none none = Except.error e) := by
  refine ⟨?_, ?_, ?_, ?_⟩
  · intro modes
    have hs : List.Pairwise rankRel (sortFailureModes modes) :=
      List.sorted_insertionSort rankRel modes
    exact ⟨List.perm_insertionSort rankRel modes,
      hs.imp (fun h => rankRel_consequences _ _ h)⟩
  · intro ext modes asms pdoc ptext plib meta r hr
    cases modes with
    | nil =>
      rw [build_report_nil_eq] at hr
      injection hr with h
      subst h
      exact ⟨rfl, rfl⟩
    | cons m ms =>
      rw [build_report_cons_eq] at hr
      cases hr
  · intro ext asms pdoc ptext plib meta
    exact ⟨_, build_report_nil_eq ext asms pdoc ptext plib meta, rfl, rfl⟩
  · exact ⟨_, build_report_cons_eq ext0 m0 [] [] pdoc0 [] none none⟩

/-- Witness for claim C6: applies the theorem at concrete inputs, with the
returned-report hypothesis discharged at the no-matches report. -/
theorem claim_c6_witness :
    (∃ r, build_report ext0 [] [] pdoc0 [] none none = Except.ok r ∧
      r.failure_modes = sortFailureModes [] ∧
      r.primary_concern = r.failure_modes.head?.map (fun m => m.name)) ∧
    List.Perm (sortFailureModes (m0 :: [])) (m0 :: []) := by
  have hok := build_report_nil_eq ext0 [] pdoc0 [] none none
  have hP := claim_c6_ranking_behaviour.2.1 ext0 [] [] pdoc0 [] none none _ hok
  exact ⟨⟨_, hok, hP.1, hP.2⟩, (claim_c6_ranking_behaviour.1 (m0 :: [])).1⟩

/-- Claim C7: a document whose joined content is under 10 characters after
trimming yields no matches, whatever the pattern library or assumptions, and
the unknowns detector still returns an at-most-10-element list on the same
section set. -/
theorem claim_c7_short_document (doc : ParsedDocument) (lib : List FailurePattern)
    (asms : List Assumption) (matched : List FailurePatternMatch)
    (libU : List FailurePattern) (meta : Option ContextualMetadata)
    (h : (pyStrip (fullTextOf doc)).length < 10) :
    match_patterns doc lib asms = [] ∧
    (detect_unknowns doc matched libU meta).length ≤ 10 := by
  constructor
  · have hb : decide ((pyStrip (fullTextOf doc)).length < 10) = true := decide_eq_true h
    simp [match_patterns, hb]
  · simp only [detect_unknowns]
    rw [List.length_take]
    exact min_le_left _ _

/-- Witness for claim C7 at the empty document. -/
theorem claim_c7_witness :
    (pyStrip (fullTextOf pdoc0)).length < 10 ∧
    (match_patterns pdoc0 [tp1] [] = [] ∧
      (detect_unknowns pdoc0 [] [] none).length ≤ 10) :=
  ⟨by decide, claim_c7_short_document pdoc0 [tp1] [] [] [] none (by decide)⟩

/-- Claim C8: every `FailurePatternMatch` in the matcher's output arises from
a library pattern with a non-empty signals list and a positive score, so a
pattern whose signals list is empty never contributes a match (and, the
embedding being total, processing one never raises). -/
theorem claim_c8_empty_signals (doc : ParsedDocument) (lib : List FailurePattern)
    (asms : List Assumption) (m : FailurePatternMatch)
    (h : MatcherItem.fpm m ∈ match_patterns doc lib asms) :
    ∃ p, p ∈ lib ∧ m = buildMatch p doc asms ∧ p.signals ≠ [] ∧ 1 ≤ signalScore p doc := by
  rcases fpm_mem_match_patterns h with ⟨p, hp, hsc, he⟩
  refine ⟨p, hp, he, ?_, hsc⟩
  intro hnil
  rw [signalScore_of_no_signals p doc hnil] at hsc
  omega

/-- Witness for claim C8: a concrete produced match. -/
theorem claim_c8_witness :
    MatcherItem.fpm (buildMatch tp1 tdoc []) ∈ match_patterns tdoc [tp1] [] ∧
    ∃ p, p ∈ [tp1] ∧ buildMatch tp1 tdoc [] = buildMatch p tdoc [] ∧ p.signals ≠ [] ∧
      1 ≤ signalScore p tdoc := by
  have hmem : MatcherItem.fpm (buildMatch tp1 tdoc []) ∈ match_patterns tdoc [tp1] [] := by
    rw [show match_patterns tdoc [tp1] [] =
      [MatcherItem.regexHit 0, MatcherItem.fpm (buildMatch tp1 tdoc [])] from rfl]
    exact List.mem_cons_of_mem _ (List.mem_cons_self _ _)
  exact ⟨hmem, claim_c8_empty_signals tdoc [tp1] [] _ hmem⟩

/-- Helper: `determine_ruled_out_risks` on a non-empty text whose collaborator
call fails returns the empty list. -/
theorem det_ruled_out_of_none (llm : Llm) (t : Str) (ms : List FailurePatternMatch)
    (hne : t.isEmpty = false)
    (hn : llm (Prompt.ruledOut (t.take 2000) (ms.map (fun m => m.name)) COMMON_RISKS) = none) :
    determine_ruled_out_risks llm t ms = [] := by
  simp [determine_ruled_out_risks, hne, hn]

/-- Helper: a response that is empty or mentions none or empty yields
the empty list. -/
theorem det_ruled_out_of_stop (llm : Llm) (t : Str) (ms : List FailurePatternMatch)
    (resp : Str) (hne : t.isEmpty = false)
    (hs : llm (Prompt.ruledOut (t.take 2000) (ms.map (fun m => m.name)) COMMON_RISKS) =
      some resp)
    (hc : (resp.isEmpty || pyIn "none".toList (lowerStr resp) ||
      pyIn "empty".toList (lowerStr resp)) = true) :
    determine_ruled_out_risks llm t ms = [] := by
  unfold determine_ruled_out_risks
  rw [if_neg (by rw [hne]; exact Bool.false_ne_true)]
  dsimp only
  rw [hs]
  dsimp only
  rw [if_pos hc]

/-- Helper: otherwise the result is the first five common risks mentioned in
the response. -/
theorem det_ruled_out_of_go (llm : Llm) (t : Str) (ms : List FailurePatternMatch)
    (resp : Str) (hne : t.isEmpty = false)
    (hs : llm (Prompt.ruledOut (t.take 2000) (ms.map (fun m => m.name)) COMMON_RISKS) =
      some resp)
    (hc : (resp.isEmpty || pyIn "none".toList (lowerStr resp) ||
      pyIn "empty".toList (lowerStr resp)) = false) :
    determine_ruled_out_risks llm t ms =
      (COMMON_RISKS.filter (fun r => pyIn (lowerStr r) (lowerStr resp))).take 5 := by
  unfold determine_ruled_out_risks
  rw [if_neg (by rw [hne]; exact Bool.false_ne_true)]
  dsimp only
  rw [hs]
  dsimp only
  rw [if_neg (by rw [hc]; exact Bool.false_ne_true)]

/-- Claim C9: for every document text, matched-pattern list and collaborator
behaviour, the ruled-out list has at most 5 entries and is an in-order
selection from the fixed `COMMON_RISKS` list; it is empty when the text is
empty and when the collaborator call fails. -/
theorem claim_c9_ruled_out_invariants (llm : Llm) (ptext : Str)
    (matched : List FailurePatternMatch) :
    (determine_ruled_out_risks llm ptext matched).length ≤ 5 ∧
    List.Sublist (determine_ruled_out_risks llm ptext matched) COMMON_RISKS ∧
    (ptext = [] → determine_ruled_out_risks llm ptext matched = []) ∧
    (llm (Prompt.ruledOut (ptext.take 2000) (matched.map (fun m => m.name)) COMMON_RISKS) =
        none → determine_ruled_out_risks llm ptext matched = []) := by
  by_cases hp : ptext.isEmpty = true
  · have he : determine_ruled_out_risks llm ptext matched = [] := by
      simp [determine_ruled_out_risks, hp]
    exact ⟨by rw [he]; simp, by rw [he]; exact List.nil_sublist _, fun _ => he, fun _ => he⟩
  · have hne : ptext.isEmpty = false := by
      revert hp
      cases ptext.isEmpty <;> simp
    cases hllm : llm (Prompt.ruledOut (ptext.take 2000)
        (matched.map (fun m => m.name)) COMMON_RISKS) with
    | none =>
      have he := det_ruled_out_of_none llm ptext matched hne hllm
      exact ⟨by rw [he]; simp, by rw [he]; exact List.nil_sublist _, fun _ => he, fun _ => he⟩
    | some resp =>
      cases hc : (resp.isEmpty || pyIn "none".toList (lowerStr resp) ||
          pyIn "empty".toList (lowerStr resp)) with
      | true =>
        have he := det_ruled_out_of_stop llm ptext matched resp hne hllm hc
        exact ⟨by rw [he]; simp, by rw [he]; exact List.nil_sublist _, fun _ => he, fun _ => he⟩
      | false =>
        have he := det_ruled_out_of_go llm ptext matched resp hne hllm hc
        refine ⟨?_, ?_, ?_, ?_⟩
        · rw [he, List.length_take]
          exact min_le_left _ _
        · rw [he]
          exact (List.take_sublist _ _).trans (List.filter_sublist _)
        · intro hptext
          subst hptext
          simp at hne
        · intro hn
          exact (Option.some_ne_none _ hn).elim

/-- Witness for claim C9 at a concrete collaborator and text. -/
theorem claim_c9_witness :
    (determine_ruled_out_risks riskLlm "design doc".toList []).length ≤ 5 ∧
    List.Sublist (determine_ruled_out_risks riskLlm "design doc".toList []) COMMON_RISKS ∧
    ("design doc".toList = ([] : Str) →
      determine_ruled_out_risks riskLlm "design doc".toList [] = []) ∧
    (riskLlm (Prompt.ruledOut ("design doc".toList.take 2000)
        (([] : List FailurePatternMatch).map (fun m => m.name)) COMMON_RISKS) = none →
      determine_ruled_out_risks riskLlm "design doc".toList [] = []) :=
  claim_c9_ruled_out_invariants riskLlm "design doc".toList []

/-- Claim C10: every produced match has a non-empty evidence list headed by a
signal-derived line, and its strength is positive, at least one over the
pattern's signal count, and at most 1. -/
theorem claim_c10_match_strength_evidence (doc : ParsedDocument)
    (lib : List FailurePattern) (asms : List Assumption) (m : FailurePatternMatch)
    (h : MatcherItem.fpm m ∈ match_patterns doc lib asms) :
    m.evidence ≠ [] ∧
    (∃ sig secs, m.evidence.head? = some (Evidence.signal sig secs)) ∧
    ∃ q, m.match_strength = some q ∧ 0 < q ∧ q ≤ 1 ∧
      ∃ p, p ∈ lib ∧ m.pattern_id = p.id ∧ p.signals ≠ [] ∧
        (1 : ℚ) / p.signals.length ≤ q := by
  rcases fpm_mem_match_patterns h with ⟨p, hp, hsc, rfl⟩
  have hsig : p.signals ≠ [] := by
    intro hnil
    rw [signalScore_of_no_signals p doc hnil] at hsc
    omega
  have hlen : 1 ≤ p.signals.length := List.length_pos.mpr hsig
  have hslen : (p.signals.filterMap (sigEvOf doc)).length = signalScore p doc := by
    rw [sigEv_length, signalScore_eq_countP]
  have hsne : p.signals.filterMap (sigEvOf doc) ≠ [] := by
    intro he
    rw [he] at hslen
    simp at hslen
    omega
  have hev : (buildMatch p doc asms).evidence =
      p.signals.filterMap (sigEvOf doc) ++
        (asms.filterMap (asmEvOf p) ++ (effectiveSafetySignals p).filterMap (mitEvOf doc)) :=
    evidenceOf_decomp p doc asms
  refine ⟨?_, ?_, ?_⟩
  · rw [hev]
    intro hab
    exact hsne (List.append_eq_nil.mp hab).1
  · rw [hev]
    rcases hE : p.signals.filterMap (sigEvOf doc) with _ | ⟨e, t⟩
    · exact absurd hE hsne
    · rcases sigEv_shape doc p.signals e (by rw [hE]; exact List.mem_cons_self _ _) with
        ⟨s, secs, rfl⟩
      exact ⟨s, secs, rfl⟩
  · have hmax : max p.signals.length 1 = p.signals.length := Nat.max_eq_left hlen
    have hQ1 : (1 : ℚ) ≤ (p.signals.length : ℚ) := by exact_mod_cast hlen
    have hQpos : (0 : ℚ) < (p.signals.length : ℚ) := lt_of_lt_of_le zero_lt_one hQ1
    have hF : (1 : ℚ) ≤ finalScore p doc asms := by
      unfold finalScore
      exact le_max_left _ _
    have hdiv1 : (1 : ℚ) / p.signals.length ≤ finalScore p doc asms / p.signals.length := by
      gcongr
    have hdivle1 : (1 : ℚ) / p.signals.length ≤ 1 := by
      rw [div_le_one hQpos]
      exact hQ1
    have hmin : (1 : ℚ) / p.signals.length ≤ matchStrength p doc asms := by
      unfold matchStrength
      rw [hmax]
      exact le_min hdiv1 hdivle1
    refine ⟨matchStrength p doc asms, rfl, ?_, ?_, p, hp, rfl, hsig, hmin⟩
    · exact lt_of_lt_of_le (div_pos zero_lt_one hQpos) hmin
    · unfold matchStrength
      exact min_le_right _ _

/-- Witness for claim C10: a concrete produced match. -/
theorem claim_c10_witness :
    MatcherItem.fpm (buildMatch tp2 tdoc []) ∈ match_patterns tdoc [tp2] [] ∧
    ((buildMatch tp2 tdoc []).evidence ≠ [] ∧
      (∃ sig secs, (buildMatch tp2 tdoc []).evidence.head? =
        some (Evidence.signal sig secs)) ∧
      ∃ q, (buildMatch tp2 tdoc []).match_strength = some q ∧ 0 < q ∧ q ≤ 1 ∧
        ∃ p, p ∈ [tp2] ∧ (buildMatch tp2 tdoc []).pattern_id = p.id ∧ p.signals ≠ [] ∧
          (1 : ℚ) / p.signals.length ≤ q) := by
  have hmem : MatcherItem.fpm (buildMatch tp2 tdoc []) ∈ match_patterns tdoc [tp2] [] := by
    rw [show match_patterns tdoc [tp2] [] =
      [MatcherItem.regexHit 6, MatcherItem.fpm (buildMatch tp2 tdoc [])] from rfl]
    exact List.mem_cons_of_mem _ (List.mem_cons_self _ _)
  exact ⟨hmem, claim_c10_match_strength_evidence tdoc [tp2] [] _ hmem⟩

end SecondOpinion
